import Mathlib

/-!
Verification of the ArtifactsMMO wrapper (`src/artifactsmmo_wrapper/__init__.py`)
against its natural-language specification.

The Python source is shallowly embedded below: pure fragments become Lean
functions, the stateful cache and cooldown code becomes explicit state
passing, the network is an explicit parameter (a function from attempt index
to the observed behaviour of that attempt), and Python exceptions become
explicit outcome constructors.  Timestamps are modelled as integers and
Python floats as exact rationals: none of the verified properties depends on
float rounding, only on guards and exact zero values.
-/

namespace ArtifactsMMO

/-! ## Exception taxonomy

One constructor per `APIException` inner class that `_raise` can throw, plus
the bare `Exception(m)` raised for unmapped non-200/non-490 codes. -/

inductive ExcKind where
  | NotFound
  | InsufficientQuantity
  | ActionAlreadyInProgress
  | TooLowLevel
  | InventoryFull
  | CharacterNotFound
  | CharacterInCooldown
  | GETooMany
  | GENoStock
  | GENoItem
  | TransactionInProgress
  | InsufficientGold
  | BankFull
  | TaskMasterAlreadyHasTask
  | TaskMasterNoTask
  | TaskMasterTaskNotComplete
  | TaskMasterTaskMissing
  | TaskMasterTaskAlreadyCompleted
  | RecyclingItemNotRecyclable
  | EquipmentTooMany
  | EquipmentAlreadyEquipped
  | EquipmentSlot
  | TokenMissingorEmpty
  | GenericException
deriving DecidableEq, Repr

/-- Embedding of `ArtifactsAPI._raise(code, m)`.

The Python body is a `match code:` statement whose cases are kept here in
source order; Python `match` takes the first matching case, which is exactly
an if-chain on equalities.  The duplicate cases (`497` appearing again for
`GETooMany`, `486` appearing again for `InsufficientGold`) are kept as dead
branches to mirror the source text.  Case `490` only logs, and after the
match the source raises a bare `Exception` for any code that is neither 200
nor 490.  `some k` means "`_raise` raises exception kind `k`"; `none` means
it returns normally. -/
def _raise (code : Nat) : Option ExcKind :=
  if code = 404 then some ExcKind.NotFound
  else if code = 478 then some ExcKind.InsufficientQuantity
  else if code = 486 then some ExcKind.ActionAlreadyInProgress
  else if code = 493 then some ExcKind.TooLowLevel
  else if code = 496 then some ExcKind.TooLowLevel
  else if code = 497 then some ExcKind.InventoryFull
  else if code = 498 then some ExcKind.CharacterNotFound
  else if code = 499 then some ExcKind.CharacterInCooldown
  else if code = 497 then some ExcKind.GETooMany
  else if code = 480 then some ExcKind.GENoStock
  else if code = 482 then some ExcKind.GENoItem
  else if code = 483 then some ExcKind.TransactionInProgress
  else if code = 486 then some ExcKind.InsufficientGold
  else if code = 461 then some ExcKind.TransactionInProgress
  else if code = 462 then some ExcKind.BankFull
  else if code = 489 then some ExcKind.TaskMasterAlreadyHasTask
  else if code = 487 then some ExcKind.TaskMasterNoTask
  else if code = 488 then some ExcKind.TaskMasterTaskNotComplete
  else if code = 474 then some ExcKind.TaskMasterTaskMissing
  else if code = 475 then some ExcKind.TaskMasterTaskAlreadyCompleted
  else if code = 473 then some ExcKind.RecyclingItemNotRecyclable
  else if code = 484 then some ExcKind.EquipmentTooMany
  else if code = 485 then some ExcKind.EquipmentAlreadyEquipped
  else if code = 491 then some ExcKind.EquipmentSlot
  else if code = 490 then none
  else if code = 452 then some ExcKind.TokenMissingorEmpty
  else if code ≠ 200 then some ExcKind.GenericException
  else none

/-! ## Request pipeline (`ArtifactsAPI._make_request`)

One network attempt is described by an `AttemptBehavior`: either
`requests.request` / `response.json()` raises (a transient transport
failure), or an HTTP response with some status code and an opaque payload
identifier is returned.  `refreshFails` says whether the nested
`self.get_character()` refresh performed inside the `try` block raises. -/

inductive AttemptResult where
  | transport
  | http (code : Nat) (payload : Nat)
deriving DecidableEq, Repr

structure AttemptBehavior where
  result : AttemptResult
  refreshFails : Bool
deriving DecidableEq, Repr

/-- A Python exception that can propagate inside `_make_request`'s `try`
block: either one raised by `_raise` (an `APIException` subclass or the bare
`Exception`), or a transport-level error from `requests` / JSON parsing. -/
inductive PyExc where
  | api (k : ExcKind)
  | transport
deriving DecidableEq, Repr

/-- Outcome of executing the `try` block of `_make_request` once. -/
inductive TryResult where
  | ok (payload : Nat)
  | raised (e : PyExc)
deriving DecidableEq, Repr

/-- One execution of the `try` block of `_make_request`:
`response = requests.request(...)`; on non-200 status build the message and
call `_raise`; then, unless `source == "get_character"`, refresh the
character via `self.get_character()` (itself a request that may raise); and
finally return `response.json()`.  Note that a 490 status passes through
`_raise` without raising and the (error) body is returned. -/
def tryBody (source : String) (b : AttemptBehavior) : TryResult :=
  match b.result with
  | AttemptResult.transport => TryResult.raised PyExc.transport
  | AttemptResult.http code payload =>
    match (if code ≠ 200 then _raise code else none) with
    | some k => TryResult.raised (PyExc.api k)
    | none =>
      if source ≠ "get_character" ∧ b.refreshFails then TryResult.raised PyExc.transport
      else TryResult.ok payload

/-- The request parameters of `_make_request`, threaded unchanged through
every retry. -/
structure Request where
  method : String
  endpoint : String
  body : Option String
  source : String
deriving DecidableEq, Repr

/-- What `_make_request` hands back to its caller: either a normal return
(`some payload` for a parsed JSON body, `none` for Python `None`), or a
propagated exception.  The source's blanket `except Exception` makes the
`raiseExc` constructor unreachable, but the type keeps it so that the spec's
"error is surfaced to the caller" is statable. -/
inductive ReqOutcome where
  | ret (v : Option Nat)
  | raiseExc (e : PyExc)
deriving DecidableEq, Repr

/-- Embedding of `ArtifactsAPI._make_request(method, endpoint, json, source,
retries=3)`.  `beh n` is the behaviour of the `n`-th network attempt (the
`attempt` argument numbers attempts from the given start index).  Returns
the outcome together with the total number of network attempts performed.

The source wraps the whole body in `try ... except Exception`: any exception
(domain exceptions raised by `_raise` included) is caught; if `retries` is
truthy the identical request is retried with `retries - 1`, otherwise the
handler falls through and the function returns `None`. -/
def _make_request (beh : Nat → AttemptBehavior) (req : Request) :
    Nat → Nat → ReqOutcome × Nat
  | attempt, 0 =>
    (match tryBody req.source (beh attempt) with
     | TryResult.ok p => (ReqOutcome.ret (some p), 1)
     | TryResult.raised _ => (ReqOutcome.ret none, 1))
  | attempt, r + 1 =>
    (match tryBody req.source (beh attempt) with
     | TryResult.ok p => (ReqOutcome.ret (some p), 1)
     | TryResult.raised _ =>
       let inner := _make_request beh req (attempt + 1) r
       (inner.1, inner.2 + 1))

/-- Behaviour of an attempt that fails at the transport level
(network timeout or malformed response body). -/
def transportBeh : AttemptBehavior :=
  { result := AttemptResult.transport, refreshFails := false }

/-- Behaviour of an attempt that returns HTTP status `code` with payload
`p`, with a non-failing character refresh. -/
def httpBeh (code : Nat) (p : Nat) : AttemptBehavior :=
  { result := AttemptResult.http code p, refreshFails := false }

/-- A network whose first `k` attempts (counting from attempt index 0) fail
at the transport level and whose later attempts succeed with payload `p`. -/
def behFailThenOk (k : Nat) (p : Nat) : Nat → AttemptBehavior :=
  fun n => if n < k then transportBeh else httpBeh 200 p

/-- The concrete request issued by `Actions.craft_item` (`"POST"` to the
crafting endpoint with `source="craft_item"`; `method` is passed
positionally at every call site). -/
def craftReq : Request :=
  { method := "POST", endpoint := "my/Char/action/crafting",
    body := some "code-quantity", source := "craft_item" }

/-- The concrete request issued by `get_character`. -/
def getCharacterReq : Request :=
  { method := "GET", endpoint := "characters/Char",
    body := none, source := "get_character" }

/-! ## Cooldown gate (`CooldownManager`)

Timestamps are modelled as integers (the code compares `datetime` values;
only the order matters).  `cooldown_expiration_time` starts as `None`. -/

structure CooldownState where
  cooldown_expiration_time : Option Int
deriving DecidableEq, Repr

/-- `CooldownManager.is_on_cooldown` at clock reading `now`: `False` when no
expiration is stored, otherwise `now < expiration`. -/
def is_on_cooldown (st : CooldownState) (now : Int) : Bool :=
  match st.cooldown_expiration_time with
  | none => false
  | some t => now < t

/-- `CooldownManager.set_cooldown_from_expiration`: unconditionally stores
the parsed expiration timestamp, replacing whatever was there. -/
def set_cooldown_from_expiration (st : CooldownState) (t : Int) : CooldownState :=
  { st with cooldown_expiration_time := some t }

/-- `CooldownManager.wait_for_cooldown`, abstracted over the passage of
time: `times i` is the clock reading observed by the `i`-th check of
`is_on_cooldown`, and `fuel` bounds how many loop iterations we unfold.
Result `some n` means the call returns after `n` sleeps; `none` means the
cooldown was still active after `fuel` sleeps.  The source's initial
`if self.is_on_cooldown():` only guards logging, so the observable sleep
behaviour is exactly the `while` loop. -/
def wait_for_cooldown (st : CooldownState) (times : Nat → Int) : Nat → Option Nat
  | 0 => if is_on_cooldown st (times 0) then none else some 0
  | fuel + 1 =>
    if is_on_cooldown st (times 0) then
      (wait_for_cooldown st (fun n => times (n + 1)) fuel).map (· + 1)
    else some 0

/-! ## The `with_cooldown` decorator

The wrapper reads `source` and `method` from **keyword** arguments only
(`kwargs.get`).  Before calling the wrapped function it re-arms the gate
from `self.char.cooldown_expiration` and waits, unless
`source == "get_character"`; after the call it re-arms the gate only when
`method not in ["GET", None, "None"]`.  `hasChar` models the
`hasattr(self, 'char') and hasattr(self.char, 'cooldown_expiration')`
guard. -/

structure WrapperRun where
  /-- `wait_for_cooldown` is invoked before the wrapped call fires. -/
  waited : Bool
  /-- the gate is re-armed from `char.cooldown_expiration` before the call. -/
  armedPre : Bool
  /-- the gate is re-armed from `char.cooldown_expiration` after the call. -/
  armedPost : Bool
deriving DecidableEq, Repr

/-- Embedding of the `with_cooldown` wrapper's gate interactions.
`source`/`method` are the values of `kwargs.get('source')` and
`kwargs.get('method')` (`none` models Python `None`, in particular a
`method` that was passed positionally rather than as a keyword). -/
def with_cooldown (source : Option String) (method : Option String)
    (hasChar : Bool) : WrapperRun :=
  if source ≠ some "get_character" then
    { waited := true
      armedPre := hasChar
      armedPost := ¬ (method = some "GET" ∨ method = none ∨ method = some "None") ∧ hasChar }
  else
    { waited := false
      armedPre := false
      armedPost := ¬ (method = some "GET" ∨ method = none ∨ method = some "None") ∧ hasChar }

/-! ## Player data (`PlayerData`)

Only the fields read by the verified operations are modelled (the spec
treats the full dataclass field list as a plain data carrier).  XP values
are integers; the Python float results are modelled as exact rationals. -/

inductive Skill where
  | mining | woodcutting | fishing | weaponcrafting
  | gearcrafting | jewelrycrafting | cooking | alchemy
deriving DecidableEq, Repr

structure PlayerData where
  mining_level : Int
  mining_xp : Int
  mining_max_xp : Int
  woodcutting_level : Int
  woodcutting_xp : Int
  woodcutting_max_xp : Int
  fishing_level : Int
  fishing_xp : Int
  fishing_max_xp : Int
  weaponcrafting_level : Int
  weaponcrafting_xp : Int
  weaponcrafting_max_xp : Int
  gearcrafting_level : Int
  gearcrafting_xp : Int
  gearcrafting_max_xp : Int
  jewelrycrafting_level : Int
  jewelrycrafting_xp : Int
  jewelrycrafting_max_xp : Int
  cooking_level : Int
  cooking_xp : Int
  cooking_max_xp : Int
  alchemy_level : Int
  alchemy_xp : Int
  alchemy_max_xp : Int
  task_progress : Int
  task_total : Int

/-- `getattr(self, f"{skill}_level")`. -/
def skillLevel (p : PlayerData) : Skill → Int
  | Skill.mining => p.mining_level
  | Skill.woodcutting => p.woodcutting_level
  | Skill.fishing => p.fishing_level
  | Skill.weaponcrafting => p.weaponcrafting_level
  | Skill.gearcrafting => p.gearcrafting_level
  | Skill.jewelrycrafting => p.jewelrycrafting_level
  | Skill.cooking => p.cooking_level
  | Skill.alchemy => p.alchemy_level

/-- `getattr(self, f"{skill}_xp")`. -/
def skillXp (p : PlayerData) : Skill → Int
  | Skill.mining => p.mining_xp
  | Skill.woodcutting => p.woodcutting_xp
  | Skill.fishing => p.fishing_xp
  | Skill.weaponcrafting => p.weaponcrafting_xp
  | Skill.gearcrafting => p.gearcrafting_xp
  | Skill.jewelrycrafting => p.jewelrycrafting_xp
  | Skill.cooking => p.cooking_xp
  | Skill.alchemy => p.alchemy_xp

/-- `getattr(self, f"{skill}_max_xp")`. -/
def skillMaxXp (p : PlayerData) : Skill → Int
  | Skill.mining => p.mining_max_xp
  | Skill.woodcutting => p.woodcutting_max_xp
  | Skill.fishing => p.fishing_max_xp
  | Skill.weaponcrafting => p.weaponcrafting_max_xp
  | Skill.gearcrafting => p.gearcrafting_max_xp
  | Skill.jewelrycrafting => p.jewelrycrafting_max_xp
  | Skill.cooking => p.cooking_max_xp
  | Skill.alchemy => p.alchemy_max_xp

/-- `PlayerData.get_skill_progress`: returns the level together with
`(xp / max_xp) * 100 if max_xp > 0 else 0`. -/
def get_skill_progress (p : PlayerData) (s : Skill) : Int × ℚ :=
  (skillLevel p s,
   if skillMaxXp p s > 0 then (skillXp p s : ℚ) / (skillMaxXp p s : ℚ) * 100 else 0)

/-- `PlayerData.get_task_progress_percentage`:
`(task_progress / task_total) * 100 if task_total > 0 else 0`. -/
def get_task_progress_percentage (p : PlayerData) : ℚ :=
  if p.task_total > 0 then (p.task_progress : ℚ) / (p.task_total : ℚ) * 100 else 0

/-! ## Reference-data store (`Items`)

The six reference-data repositories (`Items`, `Maps`, `Monsters`,
`Resources`, `Tasks`, `Achievements`) are textually identical instances of
one pattern: an in-memory `cache` dict keyed by the natural code, an
`all_items` list, a `_cache_<cat>` full paginated sweep, a `_filter_<cat>`
predicate filter and a `get_<cat>` entry point.  `Items` is embedded as the
representative instance.

A filter/record scalar value is a string or an integer.  `re.search` with
`re.IGNORECASE` is an external collaborator and is abstracted as a boolean
function `regex pattern text`. -/

inductive FilterVal where
  | s (v : String)
  | n (v : Int)
deriving DecidableEq, Repr

/-- One entry of `craft["items"]` inside an item record. -/
structure CraftMat where
  code : String
  quantity : Int
deriving DecidableEq, Repr

/-- The `craft` sub-dict of an item record. -/
structure Craft where
  skill : String
  items : List CraftMat
deriving DecidableEq, Repr

/-- An item record as served by the paginated `items` endpoint.  Only the
fields the embedded operations read are modelled; `craft := none` models an
absent (or `None`) `craft` entry, which is falsy in Python. -/
structure ItemRec where
  code : String
  name : String
  level : Int
  type : String
  craft : Option Craft
deriving DecidableEq, Repr

/-- Python str-keyed dicts are modelled as association lists in insertion
order.  `dictInsert` is dict assignment: it replaces the entry in place when
the key exists and appends otherwise. -/
def dictInsert (d : List (String × ItemRec)) (k : String) (v : ItemRec) :
    List (String × ItemRec) :=
  if (d.find? (fun kv => kv.1 = k)).isSome then
    d.map (fun kv => if kv.1 = k then (k, v) else kv)
  else d ++ [(k, v)]

/-- `dict.get(k)`: the value stored at `k`, or `None`. -/
def dictGet (d : List (String × ItemRec)) (k : String) : Option ItemRec :=
  (d.find? (fun kv => kv.1 = k)).map Prod.snd

/-- The dict comprehension `{item['code']: item for item in all_items}`:
entries are inserted in list order, a later item with the same code
overwriting an earlier one. -/
def buildCache (l : List ItemRec) : List (String × ItemRec) :=
  l.foldl (fun d it => dictInsert d it.code it) []

/-- In-memory state of the `Items` repository: `self.cache` and
`self.all_items`, both empty after `__init__`. -/
structure ItemsState where
  cache : List (String × ItemRec)
  all_items : List ItemRec
deriving DecidableEq, Repr

def emptyItems : ItemsState := { cache := [], all_items := [] }

/-- The remote `items` endpoint as `_cache_items` observes it:
`totalCount` is the `pages` field of the `size=1` probe (with one record per
page this is the total record count) and `pageData i` is the `data` list of
`items?size=100&page=i`.  `version` is the server-reported reference-data
version the specification speaks about; the source never requests or stores
it, and no embedded operation reads this field. -/
structure ItemServer where
  totalCount : Nat
  pageData : Nat → List ItemRec
  version : String

/-- Embedding of `Items._cache_items`: probe the record count, compute
`pages = math.ceil(count / 100)`, fetch pages `1..pages` accumulating
`all_items` with `extend`, then replace both the dict and the list. -/
def _cache_items (srv : ItemServer) : ItemsState :=
  let pages := (srv.totalCount + 99) / 100
  let all_items := (List.range pages).foldl (fun acc i => acc ++ srv.pageData (i + 1)) []
  { cache := buildCache all_items, all_items := all_items }

/-- Filter parameters: the `params` dict as its ordered key/value pairs. -/
abbrev Params := List (String × FilterVal)

/-- `params.get(k)` / `k in params`. -/
def paramsGet (ps : Params) (k : String) : Option FilterVal :=
  (ps.find? (fun kv => kv.1 = k)).map Prod.snd

/-- `or_conditions[key].append(value)` with dict-of-lists semantics:
append to the existing list, or create a one-element list for a new key. -/
def orInsert (oc : List (String × List FilterVal)) (k : String) (v : FilterVal) :
    List (String × List FilterVal) :=
  if (oc.find? (fun kv => kv.1 = k)).isSome then
    oc.map (fun kv => if kv.1 = k then (kv.1, kv.2 ++ [v]) else kv)
  else oc ++ [(k, [v])]

/-- `item.get(key)` restricted to the scalar fields a filter value can
compare equal to.  The `craft` key holds a nested dict in Python, which
compares unequal to every scalar, the same as the `none` returned here. -/
def itemGet (it : ItemRec) (k : String) : Option FilterVal :=
  if k = "code" then some (FilterVal.s it.code)
  else if k = "name" then some (FilterVal.s it.name)
  else if k = "level" then some (FilterVal.n it.level)
  else if k = "type" then some (FilterVal.s it.type)
  else none

/-- `any(item.get(key) == v for v in values)`; Python `==` between values
of different types (or against `None`) is `False`, never an error. -/
def orMatch (it : ItemRec) (k : String) (vs : List FilterVal) : Bool :=
  vs.any (fun v => itemGet it k = some v)

/-- `key.startswith("~")`: the first character is `'~'`.  Stated on the
character list so that it evaluates inside the kernel. -/
def startsWithTilde (k : String) : Bool :=
  match k.data with
  | [] => false
  | c :: _ => c = '~'

/-- `key[1:]`: the key with its first character removed. -/
def dropTilde (k : String) : String :=
  String.mk (k.data.drop 1)

/-- One non-`~` iteration of the `_filter_items` loop: the branch selected
by `key`, as a list comprehension over the current `filtered_items`.
`none` models a raised `TypeError`: `item['level'] <= value` with a string
`value`, or `re.compile(value)` with an integer `value`.  Unknown keys fall
through the `elif` chain and leave the list unchanged. -/
def applyFilter (regex : String → String → Bool) (k : String) (v : FilterVal)
    (items : List ItemRec) : Option (List ItemRec) :=
  if k = "craft_material" then
    some (items.filter (fun it =>
      match it.craft with
      | some c => c.items.any (fun m => FilterVal.s m.code = v)
      | none => false))
  else if k = "craft_skill" then
    some (items.filter (fun it =>
      match it.craft with
      | some c => FilterVal.s c.skill = v
      | none => false))
  else if k = "max_level" then
    match v with
    | FilterVal.n i => some (items.filter (fun it => it.level ≤ i))
    | FilterVal.s _ => none
  else if k = "min_level" then
    match v with
    | FilterVal.n i => some (items.filter (fun it => i ≤ it.level))
    | FilterVal.s _ => none
  else if k = "name" then
    match v with
    | FilterVal.s pat => some (items.filter (fun it => regex pat it.name))
    | FilterVal.n _ => none
  else if k = "item_type" then
    some (items.filter (fun it => FilterVal.s it.type = v))
  else
    some items

/-- The main loop of `_filter_items`: iterate the params in order,
accumulating `~`-prefixed keys into `or_conditions` (key stripped of the
`~`) and applying every other filter immediately; an exception aborts the
whole call. -/
def filterLoop (regex : String → String → Bool) :
    Params → List (String × List FilterVal) → List ItemRec →
    Option (List (String × List FilterVal) × List ItemRec)
  | [], oc, items => some (oc, items)
  | (k, v) :: rest, oc, items =>
    if startsWithTilde k then
      filterLoop regex rest (orInsert oc (dropTilde k) v) items
    else
      match applyFilter regex k v items with
      | some items2 => filterLoop regex rest oc items2
      | none => none

/-- Embedding of `Items._filter_items`: the sequential filters in params
order, then each OR-group in insertion order, keeping the items matching
any one of the group's values.  `none` models a propagated exception. -/
def _filter_items (regex : String → String → Bool) (params : Params)
    (all_items : List ItemRec) : Option (List ItemRec) :=
  match filterLoop regex params [] all_items with
  | none => none
  | some (oc, items) =>
    some (oc.foldl (fun acc kv => acc.filter (fun it => orMatch it kv.1 kv.2)) items)

/-- Result of `Items.get_item`: a point lookup returns a record or `None`,
a predicate filter returns a list; `error` models an exception propagating
out of `_filter_items`. -/
inductive GetItemResult where
  | single (r : Option ItemRec)
  | many (rs : List ItemRec)
  | error
deriving DecidableEq, Repr

/-- Embedding of `Items.get_item`: when `self.all_items` is falsy (empty)
run `_cache_items` first; then either point lookup by `item_code` via
`self.cache.get` (an integer `item_code` misses every string key and yields
`None`), or delegate to `_filter_items`.  Returns the result, the state
after the call, and the number of full sweeps performed (0 or 1). -/
def get_item (regex : String → String → Bool) (srv : ItemServer)
    (st : ItemsState) (params : Params) : GetItemResult × ItemsState × Nat :=
  let loaded := if st.all_items.isEmpty then (_cache_items srv, 1) else (st, 0)
  match paramsGet params "item_code" with
  | some (FilterVal.s code) => (GetItemResult.single (dictGet loaded.1.cache code), loaded.1, loaded.2)
  | some (FilterVal.n _) => (GetItemResult.single none, loaded.1, loaded.2)
  | none =>
    match _filter_items regex params loaded.1.all_items with
    | some res => (GetItemResult.many res, loaded.1, loaded.2)
    | none => (GetItemResult.error, loaded.1, loaded.2)

/-- The params dict `{"item_code": code}` of a point lookup. -/
def itemCodeParams (code : String) : Params := [("item_code", FilterVal.s code)]

/-- A filter value is well typed for its key when the corresponding branch
of `_filter_items` cannot raise: `max_level` / `min_level` need an integer,
`name` needs a string; every other key (including all `~`-prefixed ones)
only uses `==` comparisons, which never raise. -/
def paramWellTyped (kv : String × FilterVal) : Bool :=
  if kv.1 = "max_level" ∨ kv.1 = "min_level" then
    match kv.2 with
    | FilterVal.n _ => true
    | FilterVal.s _ => false
  else if kv.1 = "name" then
    match kv.2 with
    | FilterVal.s _ => true
    | FilterVal.n _ => false
  else true

/-! ## Helper lemmas -/

lemma comp_key_test_replace (c k : String) (v : ItemRec) :
    ((fun kv : String × ItemRec => decide (kv.1 = k)) ∘
        (fun kv => if kv.1 = c then (c, v) else kv))
      = (fun kv : String × ItemRec => decide (kv.1 = k)) := by
  funext kv
  by_cases h1 : kv.1 = c
  · simp [Function.comp, h1]
  · simp [Function.comp, h1]

lemma dictGet_insert_self (d : List (String × ItemRec)) (c : String) (v : ItemRec) :
    dictGet (dictInsert d c v) c = some v := by
  unfold dictInsert dictGet
  by_cases hfind : (d.find? (fun kv => kv.1 = c)).isSome
  · rw [if_pos hfind]
    rw [Option.isSome_iff_exists] at hfind
    obtain ⟨kv0, hkv0⟩ := hfind
    have hc : kv0.1 = c := by
      have := List.find?_some hkv0
      simpa using this
    rw [List.find?_map, comp_key_test_replace c c v, hkv0]
    simp [hc]
  · rw [if_neg hfind, List.find?_append]
    rw [Option.not_isSome_iff_eq_none] at hfind
    simp [hfind]

lemma dictGet_insert_ne (d : List (String × ItemRec)) (c k : String) (v : ItemRec)
    (hk : k ≠ c) : dictGet (dictInsert d c v) k = dictGet d k := by
  unfold dictInsert dictGet
  by_cases hfind : (d.find? (fun kv => kv.1 = c)).isSome
  · rw [if_pos hfind, List.find?_map, comp_key_test_replace c k v]
    cases hf : d.find? (fun kv => decide (kv.1 = k)) with
    | none => rfl
    | some kv0 =>
      have hkk : kv0.1 = k := by
        have := List.find?_some hf
        simpa using this
      have h1 : ¬ (kv0.1 = c) := by rw [hkk]; exact hk
      simp [h1]
  · rw [if_neg hfind, List.find?_append]
    have hck : ¬ (c = k) := fun h => hk h.symm
    simp [hck]

lemma cacheFold_get_absent :
    ∀ (l : List ItemRec) (d : List (String × ItemRec)) (k : String),
    (∀ r ∈ l, r.code ≠ k) →
    dictGet (l.foldl (fun d it => dictInsert d it.code it) d) k = dictGet d k := by
  intro l
  induction l with
  | nil => intro d k _; rfl
  | cons x l ih =>
    intro d k h
    have hx : x.code ≠ k := h x (List.mem_cons_self x l)
    calc dictGet ((x :: l).foldl (fun d it => dictInsert d it.code it) d) k
        = dictGet (l.foldl (fun d it => dictInsert d it.code it) (dictInsert d x.code x)) k := rfl
      _ = dictGet (dictInsert d x.code x) k :=
          ih (dictInsert d x.code x) k (fun r hr => h r (List.mem_cons_of_mem x hr))
      _ = dictGet d k := dictGet_insert_ne d x.code k x (fun hkk => hx hkk.symm)

lemma cacheFold_get_mem :
    ∀ (l : List ItemRec) (d : List (String × ItemRec)) (r : ItemRec),
    (l.map ItemRec.code).Nodup → r ∈ l →
    dictGet (l.foldl (fun d it => dictInsert d it.code it) d) r.code = some r := by
  intro l
  induction l with
  | nil => intro d r _ hr; cases hr
  | cons x l ih =>
    intro d r hnd hr
    rw [List.map_cons, List.nodup_cons] at hnd
    rcases List.mem_cons.mp hr with hrx | hrl
    · subst hrx
      have habs : ∀ r' ∈ l, r'.code ≠ r.code := by
        intro r' hr' h
        exact hnd.1 (h ▸ List.mem_map_of_mem ItemRec.code hr')
      calc dictGet ((r :: l).foldl (fun d it => dictInsert d it.code it) d) r.code
          = dictGet (l.foldl (fun d it => dictInsert d it.code it) (dictInsert d r.code r)) r.code := rfl
        _ = dictGet (dictInsert d r.code r) r.code := cacheFold_get_absent l _ r.code habs
        _ = some r := dictGet_insert_self d r.code r
    · exact ih (dictInsert d x.code x) r hnd.2 hrl

/-- Point lookup in the cache built from a code-unique record list finds
exactly the record with that code. -/
lemma buildCache_get_mem (l : List ItemRec) (r : ItemRec)
    (hnd : (l.map ItemRec.code).Nodup) (hr : r ∈ l) :
    dictGet (buildCache l) r.code = some r :=
  cacheFold_get_mem l [] r hnd hr

/-- Point lookup with a key no record carries yields `none`. -/
lemma buildCache_get_absent (l : List ItemRec) (k : String)
    (hk : k ∉ l.map ItemRec.code) :
    dictGet (buildCache l) k = none := by
  have : ∀ r ∈ l, r.code ≠ k := by
    intro r hr h
    exact hk (h ▸ List.mem_map_of_mem ItemRec.code hr)
  exact cacheFold_get_absent l [] k this

/-- When every attempt's `try` block raises (any exception at all), the
retry loop makes `retries + 1` attempts and returns Python `None`. -/
lemma make_request_all_raised (beh : Nat → AttemptBehavior) (req : Request) :
    ∀ (r a : Nat), (∀ i, ∃ e, tryBody req.source (beh i) = TryResult.raised e) →
    _make_request beh req a r = (ReqOutcome.ret none, r + 1) := by
  intro r
  induction r with
  | zero =>
    intro a h
    obtain ⟨e, he⟩ := h a
    simp [_make_request, he]
  | succ r ih =>
    intro a h
    obtain ⟨e, he⟩ := h a
    simp [_make_request, he, ih (a + 1) h]

/-- When the first `k` attempts raise transport errors and attempt `k`
succeeds, and the retry budget covers `k` retries, the loop stops after
`k + 1` attempts with the successful payload. -/
lemma make_request_eventually_ok (beh : Nat → AttemptBehavior) (req : Request) (p : Nat) :
    ∀ (k r a : Nat), k ≤ r →
    (∀ i, i < k → tryBody req.source (beh (a + i)) = TryResult.raised PyExc.transport) →
    tryBody req.source (beh (a + k)) = TryResult.ok p →
    _make_request beh req a r = (ReqOutcome.ret (some p), k + 1) := by
  intro k
  induction k with
  | zero =>
    intro r a _ _ hok
    rw [Nat.add_zero] at hok
    cases r <;> simp [_make_request, hok]
  | succ k ih =>
    intro r a hkr hfail hok
    have hf0 : tryBody req.source (beh a) = TryResult.raised PyExc.transport := by
      have := hfail 0 (Nat.succ_pos k)
      simpa using this
    cases r with
    | zero => omega
    | succ r =>
      have hkr2 : k ≤ r := Nat.succ_le_succ_iff.mp hkr
      have hfail2 : ∀ i, i < k →
          tryBody req.source (beh (a + 1 + i)) = TryResult.raised PyExc.transport := by
        intro i hi
        have h := hfail (i + 1) (Nat.succ_lt_succ hi)
        have harith : a + (i + 1) = a + 1 + i := by omega
        rwa [harith] at h
      have hok2 : tryBody req.source (beh (a + 1 + k)) = TryResult.ok p := by
        have harith : a + (k + 1) = a + 1 + k := by omega
        rwa [harith] at hok
      have hrest := ih r (a + 1) hkr2 hfail2 hok2
      simp [_make_request, hf0, hrest]

/-- A well-typed filter never raises in its own branch. -/
lemma applyFilter_isSome (regex : String → String → Bool) (k : String) (v : FilterVal)
    (items : List ItemRec) (h : paramWellTyped (k, v) = true) :
    (applyFilter regex k v items).isSome := by
  by_cases h1 : k = "craft_material"
  · simp [applyFilter, h1]
  · by_cases h2 : k = "craft_skill"
    · simp [applyFilter, h1, h2]
    · by_cases h3 : k = "max_level"
      · cases v with
        | n i => simp [applyFilter, h1, h2, h3]
        | s w => simp [paramWellTyped, h3] at h
      · by_cases h4 : k = "min_level"
        · cases v with
          | n i => simp [applyFilter, h1, h2, h3, h4]
          | s w => simp [paramWellTyped, h4] at h
        · by_cases h5 : k = "name"
          · cases v with
            | s w => simp [applyFilter, h1, h2, h3, h4, h5]
            | n i => simp [paramWellTyped, h3, h4, h5] at h
          · by_cases h6 : k = "item_type"
            · simp [applyFilter, h1, h2, h3, h4, h5, h6]
            · simp [applyFilter, h1, h2, h3, h4, h5, h6]

/-- The `_filter_items` loop over well-typed params never raises. -/
lemma filterLoop_isSome (regex : String → String → Bool) :
    ∀ (params : Params) (oc : List (String × List FilterVal)) (items : List ItemRec),
    (∀ kv ∈ params, paramWellTyped kv = true) →
    (filterLoop regex params oc items).isSome := by
  intro params
  induction params with
  | nil =>
    intro oc items _
    simp [filterLoop]
  | cons kv rest ih =>
    intro oc items h
    obtain ⟨k, v⟩ := kv
    by_cases hpre : startsWithTilde k
    · simpa [filterLoop, hpre] using
        ih _ items (fun kv2 hkv2 => h kv2 (List.mem_cons_of_mem _ hkv2))
    · have hwt := h (k, v) (List.mem_cons_self _ _)
      have hsome := applyFilter_isSome regex k v items hwt
      rw [Option.isSome_iff_exists] at hsome
      obtain ⟨items2, h2⟩ := hsome
      simpa [filterLoop, hpre, h2] using
        ih oc items2 (fun kv2 hkv2 => h kv2 (List.mem_cons_of_mem _ hkv2))

/-- `_filter_items` with well-typed params returns a list, never an
exception. -/
lemma filter_items_isSome (regex : String → String → Bool) (params : Params)
    (l : List ItemRec) (h : ∀ kv ∈ params, paramWellTyped kv = true) :
    (_filter_items regex params l).isSome := by
  unfold _filter_items
  have hsome := filterLoop_isSome regex params [] l h
  rw [Option.isSome_iff_exists] at hsome
  obtain ⟨x, hx⟩ := hsome
  obtain ⟨oc, items⟩ := x
  rw [hx]
  simp

/-! ## Concrete fixtures used by counterexamples and witnesses -/

/-- Degenerate regex collaborator: matches nothing. -/
def noRegex : String → String → Bool := fun _ _ => false

def itemA : ItemRec :=
  { code := "a", name := "Apple", level := 3, type := "consumable", craft := none }

def itemB : ItemRec :=
  { code := "b", name := "Bronze Sword", level := 5, type := "weapon",
    craft := some { skill := "weaponcrafting", items := [{ code := "a", quantity := 2 }] } }

/-- A server holding two item records on one page, reporting version
`"1.0"`. -/
def srvW : ItemServer :=
  { totalCount := 2, pageData := fun _ => [itemA, itemB], version := "1.0" }

/-- The same reference data, reported under the changed version `"1.1"`. -/
def srvW2 : ItemServer :=
  { totalCount := 2, pageData := fun _ => [itemA, itemB], version := "1.1" }

/-- A `PlayerData` with every modelled field zero. -/
def pZero : PlayerData :=
  { mining_level := 0, mining_xp := 0, mining_max_xp := 0,
    woodcutting_level := 0, woodcutting_xp := 0, woodcutting_max_xp := 0,
    fishing_level := 0, fishing_xp := 0, fishing_max_xp := 0,
    weaponcrafting_level := 0, weaponcrafting_xp := 0, weaponcrafting_max_xp := 0,
    gearcrafting_level := 0, gearcrafting_xp := 0, gearcrafting_max_xp := 0,
    jewelrycrafting_level := 0, jewelrycrafting_xp := 0, jewelrycrafting_max_xp := 0,
    cooking_level := 0, cooking_xp := 0, cooking_max_xp := 0,
    alchemy_level := 0, alchemy_xp := 0, alchemy_max_xp := 0,
    task_progress := 0, task_total := 0 }

/-- A `PlayerData` mid-way through mining XP and a task. -/
def pHalf : PlayerData :=
  { mining_level := 2, mining_xp := 50, mining_max_xp := 200,
    woodcutting_level := 0, woodcutting_xp := 0, woodcutting_max_xp := 0,
    fishing_level := 0, fishing_xp := 0, fishing_max_xp := 0,
    weaponcrafting_level := 0, weaponcrafting_xp := 0, weaponcrafting_max_xp := 0,
    gearcrafting_level := 0, gearcrafting_xp := 0, gearcrafting_max_xp := 0,
    jewelrycrafting_level := 0, jewelrycrafting_xp := 0, jewelrycrafting_max_xp := 0,
    cooking_level := 0, cooking_xp := 0, cooking_max_xp := 0,
    alchemy_level := 0, alchemy_xp := 0, alchemy_max_xp := 0,
    task_progress := 5, task_total := 10 }

/-! ## Claim theorems -/

/-- C9: in the status-code-to-exception mapping, the first listed case per
duplicated code is authoritative and the duplicate is unreachable: `_raise`
on 497 always yields `InventoryFull` (never `GETooMany`), and `_raise` on
486 always yields `ActionAlreadyInProgress` (never `InsufficientGold`). -/
theorem C9_duplicate_codes_first_case_wins :
    _raise 497 = some ExcKind.InventoryFull
    ∧ _raise 497 ≠ some ExcKind.GETooMany
    ∧ _raise 486 = some ExcKind.ActionAlreadyInProgress
    ∧ _raise 486 ≠ some ExcKind.InsufficientGold := by
  refine ⟨rfl, ?_, rfl, ?_⟩ <;> decide

/-- C10: `get_skill_progress` returns progress 0 whenever the named skill's
`max_xp` is not positive, and `get_task_progress_percentage` returns 0
whenever `task_total` is not positive; the division is evaluated only under
the corresponding positivity guard, so neither operation divides by zero
and both are total Lean functions on all modelled inputs. -/
theorem C10_progress_guards (p : PlayerData) (s : Skill) :
    (skillMaxXp p s ≤ 0 → (get_skill_progress p s).2 = 0)
    ∧ (p.task_total ≤ 0 → get_task_progress_percentage p = 0)
    ∧ (0 < skillMaxXp p s →
        (get_skill_progress p s).2 = (skillXp p s : ℚ) / (skillMaxXp p s : ℚ) * 100)
    ∧ (0 < p.task_total →
        get_task_progress_percentage p = (p.task_progress : ℚ) / (p.task_total : ℚ) * 100) := by
  refine ⟨fun h => ?_, fun h => ?_, fun h => ?_, fun h => ?_⟩
  · simp [get_skill_progress, not_lt.mpr h]
  · simp [get_task_progress_percentage, not_lt.mpr h]
  · simp [get_skill_progress, h]
  · simp [get_task_progress_percentage, h]

/-- Witness for C10: zero guards fire on a player whose `mining_max_xp` and
`task_total` are zero, and the guarded divisions run on a player with
positive denominators. -/
theorem C10_progress_guards_witness :
    (get_skill_progress pZero Skill.mining).2 = 0
    ∧ get_task_progress_percentage pZero = 0
    ∧ (get_skill_progress pHalf Skill.mining).2
        = (skillXp pHalf Skill.mining : ℚ) / (skillMaxXp pHalf Skill.mining : ℚ) * 100
    ∧ get_task_progress_percentage pHalf
        = (pHalf.task_progress : ℚ) / (pHalf.task_total : ℚ) * 100 :=
  ⟨(C10_progress_guards pZero Skill.mining).1 (by decide),
   (C10_progress_guards pZero Skill.mining).2.1 (by decide),
   (C10_progress_guards pHalf Skill.mining).2.2.1 (by decide),
   (C10_progress_guards pHalf Skill.mining).2.2.2 (by decide)⟩

/-- C6: `wait_for_cooldown` on an unarmed gate (no stored expiration)
returns after zero sleeps whatever the clock does, and
`set_cooldown_from_expiration` unconditionally replaces the stored
expiration with the new one — for every prior state, active window or
not. -/
theorem C6_unarmed_wait_and_arm_overwrites (st : CooldownState)
    (h : st.cooldown_expiration_time = none) :
    (∀ (times : Nat → Int) (fuel : Nat), wait_for_cooldown st times fuel = some 0)
    ∧ (∀ (st2 : CooldownState) (t : Int),
        set_cooldown_from_expiration st2 t = { cooldown_expiration_time := some t }) := by
  constructor
  · intro times fuel
    cases fuel <;> simp [wait_for_cooldown, is_on_cooldown, h]
  · intro st2 t
    rfl

/-- Witness for C6: the freshly constructed manager waits zero sleeps, and
arming over a still-armed gate replaces the old expiration. -/
theorem C6_unarmed_wait_and_arm_overwrites_witness :
    wait_for_cooldown { cooldown_expiration_time := none } (fun _ => 0) 5 = some 0
    ∧ set_cooldown_from_expiration { cooldown_expiration_time := some 3 } 7
        = { cooldown_expiration_time := some 7 } :=
  ⟨(C6_unarmed_wait_and_arm_overwrites { cooldown_expiration_time := none } rfl).1 (fun _ => 0) 5,
   (C6_unarmed_wait_and_arm_overwrites { cooldown_expiration_time := none } rfl).2
     { cooldown_expiration_time := some 3 } 7⟩

/-- C4 counterexample: the claim says a reference-data sweep request
(`source="get_all_items"`) never waits on the cooldown gate, but the
`with_cooldown` wrapper exempts only `source="get_character"`: the sweep
call does invoke the gate wait before its network call fires. -/
theorem C4_counterexample :
    ¬ ((with_cooldown (some "get_all_items") none true).waited = false) := by
  decide

/-- C4 amended: only requests carrying `source="get_character"` skip the
cooldown gate; every other request — the reference-data GET sweeps
(`source="get_all_items"` and its analogues) included — arms the gate from
the character's stored cooldown expiration and waits on it before the
network call.  Moreover no call in this codebase re-arms the gate after the
call, because the post-call arm requires `method` to be a keyword argument
distinct from `"GET"`/`None`/`"None"`, and every call site passes the
method positionally (`kwargs.get('method')` is `None`). -/
theorem C4_amended :
    (∀ (method : Option String) (hasChar : Bool),
        (with_cooldown (some "get_all_items") method hasChar).waited = true)
    ∧ (∀ (method : Option String) (hasChar : Bool),
        (with_cooldown (some "get_character") method hasChar).waited = false)
    ∧ (∀ (source : Option String) (hasChar : Bool),
        (with_cooldown source none hasChar).armedPost = false)
    ∧ (∀ (source method : Option String) (hasChar : Bool),
        (with_cooldown source method hasChar).waited = false ↔ source = some "get_character") := by
  refine ⟨fun method hasChar => ?_, fun method hasChar => ?_,
          fun source hasChar => ?_, fun source method hasChar => ?_⟩
  · simp [with_cooldown]
  · simp [with_cooldown]
  · by_cases h : source = some "get_character" <;> simp [with_cooldown, h]
  · by_cases h : source = some "get_character" <;> simp [with_cooldown, h]

/-- C2 counterexample: with a server that answers 493 to `craft_item`
(default `retries=3`), `_make_request` does not raise `TooLowLevel` to the
caller and does not stop after one attempt.  Instead it makes 4 attempts and
returns Python `None`. -/
theorem C2_counterexample :
    _make_request (fun _ => httpBeh 493 0) craftReq 0 3 = (ReqOutcome.ret none, 4)
    ∧ (_make_request (fun _ => httpBeh 493 0) craftReq 0 3).1
        ≠ ReqOutcome.raiseExc (PyExc.api ExcKind.TooLowLevel)
    ∧ (_make_request (fun _ => httpBeh 493 0) craftReq 0 3).2 ≠ 1 := by
  refine ⟨?_, ?_, ?_⟩ <;> decide

/-- C2 amended: on a non-success status `_raise` does map the code to its
specific error kind and raises it (493 → `TooLowLevel`), but
`_make_request`'s blanket `except Exception` handler catches domain errors
exactly like transient failures and retries them with the same parameters;
after the retry budget of `r` is exhausted the call has made `r + 1`
attempts and returns `None` — no exception ever reaches the caller. -/
theorem C2_amended_mapped_but_retried_and_swallowed :
    _raise 493 = some ExcKind.TooLowLevel
    ∧ tryBody "craft_item" (httpBeh 493 0) = TryResult.raised (PyExc.api ExcKind.TooLowLevel)
    ∧ ∀ (req : Request) (p a r : Nat),
        _make_request (fun _ => httpBeh 493 p) req a r = (ReqOutcome.ret none, r + 1) := by
  refine ⟨rfl, rfl, ?_⟩
  intro req p a r
  exact make_request_all_raised _ req r a
    (fun _ => ⟨PyExc.api ExcKind.TooLowLevel, rfl⟩)

/-- C3 counterexample: a request that keeps timing out (e.g.
`get_character`, default `retries=3`) is retried three times, but
exhausting the retries does not surface the transport error: the call
returns Python `None` after 4 attempts. -/
theorem C3_counterexample :
    _make_request (fun _ => transportBeh) getCharacterReq 0 3 = (ReqOutcome.ret none, 4)
    ∧ (_make_request (fun _ => transportBeh) getCharacterReq 0 3).1
        ≠ ReqOutcome.raiseExc PyExc.transport := by
  refine ⟨?_, ?_⟩ <;> decide

/-- C3 amended: on transient failure `_make_request` retries the identical
request (the same `method`/`endpoint`/`body`/`source` are threaded through
every recursive call) up to the fixed bound `r` (default 3), stopping early
as soon as an attempt succeeds; but when all `r + 1` attempts fail the last
error is not surfaced — the call returns `None`. -/
theorem C3_amended_retry_bound_none_return (req : Request) (k r p : Nat) (h : k ≤ r) :
    _make_request (fun _ => transportBeh) req 0 r = (ReqOutcome.ret none, r + 1)
    ∧ _make_request (behFailThenOk k p) req 0 r = (ReqOutcome.ret (some p), k + 1) := by
  constructor
  · exact make_request_all_raised _ req r 0 (fun _ => ⟨PyExc.transport, rfl⟩)
  · apply make_request_eventually_ok (behFailThenOk k p) req p k r 0 h
    · intro i hi
      simp [behFailThenOk, hi, transportBeh, tryBody]
    · simp [behFailThenOk, tryBody, httpBeh, _raise]

/-- Witness for C3: two transport timeouts then success stops at the third
attempt; four straight timeouts exhaust the budget and return `None`. -/
theorem C3_amended_retry_bound_none_return_witness :
    _make_request (fun _ => transportBeh) getCharacterReq 0 3 = (ReqOutcome.ret none, 3 + 1)
    ∧ _make_request (behFailThenOk 2 7) getCharacterReq 0 3 = (ReqOutcome.ret (some 7), 2 + 1) :=
  C3_amended_retry_bound_none_return getCharacterReq 2 3 7 (by decide)

/-- `params = {"item_code": code}` contains the key. -/
lemma paramsGet_itemCode (code : String) :
    paramsGet (itemCodeParams code) "item_code" = some (FilterVal.s code) := rfl

/-- The cache field written by `_cache_items` is the dict built from the
accumulated page data. -/
lemma cache_items_cache (srv : ItemServer) :
    (_cache_items srv).cache = buildCache (_cache_items srv).all_items := rfl

/-- A point lookup on the state `_cache_items` produced is served from the
built dict: if the store happens to be empty the code rebuilds it first, but
rebuilding from the same server yields the same state. -/
lemma get_item_code_result (regex : String → String → Bool) (srv : ItemServer)
    (code : String) :
    (get_item regex srv (_cache_items srv) (itemCodeParams code)).1
      = GetItemResult.single (dictGet (buildCache (_cache_items srv).all_items) code) := by
  simp only [get_item, paramsGet_itemCode]
  split <;> rfl

/-- C7: after a rebuild, point lookup round-trips.  If the fetched records
have pairwise distinct codes, `get_item` with a fetched record's code
returns that very record (hence every field equals the page data), and
`get_item` with a code no fetched record carries returns the `None`
sentinel instead of raising. -/
theorem C7_roundtrip_lookup (regex : String → String → Bool) (srv : ItemServer)
    (r : ItemRec) (k : String)
    (hnodup : ((_cache_items srv).all_items.map ItemRec.code).Nodup)
    (hmem : r ∈ (_cache_items srv).all_items)
    (habs : k ∉ (_cache_items srv).all_items.map ItemRec.code) :
    (get_item regex srv (_cache_items srv) (itemCodeParams r.code)).1
      = GetItemResult.single (some r)
    ∧ (get_item regex srv (_cache_items srv) (itemCodeParams k)).1
      = GetItemResult.single none := by
  constructor
  · rw [get_item_code_result, buildCache_get_mem _ r hnodup hmem]
  · rw [get_item_code_result, buildCache_get_absent _ k habs]

/-- Witness for C7 on the two-record server: the crafted sword is returned
field-for-field, and an unknown code yields the `None` sentinel. -/
theorem C7_roundtrip_lookup_witness :
    (get_item noRegex srvW (_cache_items srvW) (itemCodeParams "b")).1
      = GetItemResult.single (some itemB)
    ∧ (get_item noRegex srvW (_cache_items srvW) (itemCodeParams "zzz")).1
      = GetItemResult.single none := by
  have h := C7_roundtrip_lookup noRegex srvW itemB "zzz" (by decide) (by decide) (by decide)
  exact ⟨h.1, h.2⟩

/-- C8: calling `get_item` with filter params (no `item_code`) while the
store is empty first runs the full cache load, then computes the filter
result from the freshly loaded records; with well-typed filter values the
call returns a (possibly empty) list and never an exception. -/
theorem C8_filter_on_empty_store (regex : String → String → Bool) (srv : ItemServer)
    (params : Params)
    (hnc : paramsGet params "item_code" = none)
    (hwt : ∀ kv ∈ params, paramWellTyped kv = true) :
    ∃ l, _filter_items regex params (_cache_items srv).all_items = some l
      ∧ get_item regex srv emptyItems params = (GetItemResult.many l, _cache_items srv, 1) := by
  have hsome := filter_items_isSome regex params (_cache_items srv).all_items hwt
  rw [Option.isSome_iff_exists] at hsome
  obtain ⟨l, hl⟩ := hsome
  refine ⟨l, hl, ?_⟩
  simp only [get_item, hnc, emptyItems, List.isEmpty_nil, if_true, hl]

/-- Witness for C8: a `max_level` filter matching nothing, issued on the
empty store, loads the cache and returns the empty list. -/
theorem C8_filter_on_empty_store_witness :
    get_item noRegex srvW emptyItems [("max_level", FilterVal.n 0)]
      = (GetItemResult.many [], _cache_items srvW, 1) := by
  obtain ⟨l, h1, h2⟩ := C8_filter_on_empty_store noRegex srvW
    [("max_level", FilterVal.n 0)] (by decide) (by decide)
  have h0 : _filter_items noRegex [("max_level", FilterVal.n 0)]
      (_cache_items srvW).all_items = some [] := by decide
  rw [h0] at h1
  obtain rfl : ([] : List ItemRec) = l := Option.some_inj.mp h1
  exact h2

/-- C1 counterexample: the `Items` store was built while the server
reported version `"1.0"`; the server now reports `"1.1"` with the same
data, yet a lookup performs 0 sweeps — the claimed version-mismatch rebuild
(exactly one sweep) does not happen.  The source keeps no version record at
all. -/
theorem C1_counterexample :
    srvW.version = "1.0" ∧ srvW2.version = "1.1"
    ∧ (get_item noRegex srvW2 (_cache_items srvW) (itemCodeParams "a")).2.2 = 0
    ∧ (0 : Nat) ≠ 1 := by
  refine ⟨rfl, rfl, ?_, by decide⟩
  decide

/-- C1 amended: a category store is rebuilt iff the in-memory record list
is empty at lookup time; the server-reported version plays no role.  In
particular (a) every `get_item` performs one sweep when the store is empty
and none otherwise; (b) from an empty store, against a server with at least
one record, two successive lookups perform exactly one sweep in total even
if the server (version included) changes between them; (c) changing only
the server's reported version changes nothing about any lookup. -/
theorem C1_amended :
    (∀ (regex : String → String → Bool) (srv : ItemServer) (st : ItemsState)
        (params : Params),
      (get_item regex srv st params).2.2 = if st.all_items.isEmpty then 1 else 0)
    ∧ (∀ (regex regex2 : String → String → Bool) (srv srv2 : ItemServer)
        (code code2 : String) (st : ItemsState),
      st.all_items.isEmpty → ¬ (_cache_items srv).all_items.isEmpty →
      (get_item regex srv st (itemCodeParams code)).2.2
        + (get_item regex2 srv2 (get_item regex srv st (itemCodeParams code)).2.1
            (itemCodeParams code2)).2.2 = 1)
    ∧ (∀ (regex : String → String → Bool) (srv : ItemServer) (st : ItemsState)
        (params : Params) (v : String),
      get_item regex { srv with version := v } st params = get_item regex srv st params) := by
  have hcount : ∀ (regex : String → String → Bool) (srv : ItemServer) (st : ItemsState)
      (params : Params),
      (get_item regex srv st params).2.2 = if st.all_items.isEmpty then 1 else 0 := by
    intro regex srv st params
    by_cases h : st.all_items.isEmpty <;>
      · simp only [get_item, h, if_true, if_false]
        rcases paramsGet params "item_code" with _ | v
        · rcases _filter_items regex params _ with _ | l <;> rfl
        · rcases v with w | i <;> rfl
  refine ⟨hcount, ?_, ?_⟩
  · intro regex regex2 srv srv2 code code2 st h1 h2
    have hstate : (get_item regex srv st (itemCodeParams code)).2.1 = _cache_items srv := by
      simp only [get_item, paramsGet_itemCode, h1, if_true]
    rw [hcount regex srv st (itemCodeParams code), if_pos h1,
        hcount regex2 srv2 _ (itemCodeParams code2), hstate,
        if_neg h2]
  · intro regex srv st params v
    rfl

/-- Witness for C1 amended: from the empty store, a lookup against the
version-"1.0" server and a second lookup against the version-"1.1" server
perform one sweep in total. -/
theorem C1_amended_witness :
    (get_item noRegex srvW emptyItems (itemCodeParams "a")).2.2
      + (get_item noRegex srvW2 (get_item noRegex srvW emptyItems (itemCodeParams "a")).2.1
          (itemCodeParams "b")).2.2 = 1 :=
  C1_amended.2.1 noRegex noRegex srvW srvW2 "a" "b" emptyItems (by decide) (by decide)

end ArtifactsMMO
